import Mathlib

/-!
# MedCare prescription-issuance core: shallow embedding

This file embeds the transactional core of the MedCare clinic-management
repository — the stored procedure `sp_IssuePrescriptionItem` and the audit
trigger `trg_Audit_StockUpdate`, together with the direct stock-update
mutation `updateMedicationStock.sql` — as executable Lean definitions, and
proves the specified properties about them.

Modelling conventions:
* SQL tables are lists of rows; the session variable `@current_staff_id`
  is an `Option String` carried in a `Session` record alongside the database.
* The locking read (`SELECT ... FOR UPDATE`), inserts, updates, commit and
  rollback of the procedure are executed in the source's statement order;
  each run also records an event trace so that ordering facts (what happened
  before what) are provable.
* Each `SIGNAL SQLSTATE '45000'` site in the source carries a distinct
  message text, modelled as a distinct `SqlError` value with the exact
  message recoverable through `SqlError.message`. SQLSTATE '45000' is an
  SQLEXCEPTION-class condition, so a `SIGNAL` raised in the procedure's
  body activates the procedure's own in-scope
  `EXIT HANDLER FOR SQLEXCEPTION`, which rolls back and re-signals the
  single generic message: the caller of the procedure observes only
  `IssuanceFailed`, while the condition raised at the originating `SIGNAL`
  site is recorded in the event trace (`evSignal`).
* The `AFTER UPDATE` trigger fires once per row matched by an `UPDATE`
  statement on `medications`; an error raised by the trigger aborts the
  whole statement, and (inside the procedure) the `EXIT HANDLER` then rolls
  the transaction back.
* An underlying storage error is modelled by a `FaultPoint` oracle that can
  make the `INSERT` or the `UPDATE` statement fail, activating the
  procedure's `EXIT HANDLER FOR SQLEXCEPTION`.
* Transactions are modelled functionally: a rollback path returns the
  database as it was at `START TRANSACTION`; session variables (`@...`)
  are not transactional, so rollback does not restore them.
-/

/-- A row of the `medications` table: identifier, name, description,
`stock_quantity` and `unit_price` (price modelled as an integer amount). -/
structure Medication where
  medication_id : Nat
  name : String
  description : String
  stock_quantity : Int
  unit_price : Int
deriving DecidableEq

/-- A row of the `prescription_item` table, as inserted by
`sp_IssuePrescriptionItem` (with `created_at` filled by the engine). -/
structure PrescriptionItem where
  prescriptionitem_id : String
  diagnosis_id : String
  quantity : Int
  guide : String
  duration : String
  medication_id : Nat
  created_at : Nat
deriving DecidableEq

/-- A value stored in one cell of a `medication_audit` row whose column is
populated from the trigger's `VALUES` list: either the staff reference
`@current_staff_id` or the engine timestamp `CURRENT_TIMESTAMP`. Keeping the
two apart as constructors lets the embedding record exactly which value the
source places in which column. -/
inductive AuditCell where
  | staffRef (s : String)
  | timeRef (t : Nat)
deriving DecidableEq

/-- A row of the `medication_audit` table, with the columns in the order of
the trigger's `INSERT` column list:
`(medication_id, old_quantity, new_quantity, change_type, change_at, staff_id)`. -/
structure MedicationAudit where
  medication_id : Nat
  old_quantity : Int
  new_quantity : Int
  change_type : String
  change_at : AuditCell
  staff_id : AuditCell
deriving DecidableEq

/-- The database state relevant to the issuance core. -/
structure DB where
  medications : List Medication
  prescription_item : List PrescriptionItem
  medication_audit : List MedicationAudit
deriving DecidableEq

/-- A database connection/session: the database plus the session variable
`@current_staff_id` (the transaction-scoped actor context). -/
structure Session where
  db : DB
  current_staff_id : Option String
deriving DecidableEq

/-- The distinct failures the SQL core can signal, one per
`SIGNAL SQLSTATE '45000'` site in the source. -/
inductive SqlError where
  | MedicationNotFound
  | InvalidQuantity
  | InsufficientStock
  | IssuanceFailed
  | UnauthorizedStockUpdate
deriving DecidableEq

/-- The `MESSAGE_TEXT` each `SIGNAL` site in the source attaches. -/
def SqlError.message : SqlError → String
  | .MedicationNotFound => "Medication not found."
  | .InvalidQuantity => "Invalid quantity requested."
  | .InsufficientStock => "Insufficient stock for medication."
  | .IssuanceFailed => "An error occurred while issuing prescription. Transaction rolled back."
  | .UnauthorizedStockUpdate => "Unauthorized stock update detected."

/-- Shallow embedding of the trigger `trg_Audit_StockUpdate`
(`AFTER UPDATE ON medications FOR EACH ROW`), applied to one updated row.
`ctx` is `@current_staff_id`, `now` is `CURRENT_TIMESTAMP`, `old`/`upd` are
the `OLD` and `NEW` rows. It first signals `UnauthorizedStockUpdate` when
`@current_staff_id IS NULL`; otherwise, when stock changed, it returns the
single `medication_audit` row to append. The source's `VALUES` list places
`@current_staff_id` in the `change_at` position and `CURRENT_TIMESTAMP` in
the `staff_id` position, and the embedding reproduces that placement. -/
def trg_Audit_StockUpdate (ctx : Option String) (now : Nat)
    (old upd : Medication) : Except SqlError (List MedicationAudit) :=
  match ctx with
  | none => .error .UnauthorizedStockUpdate
  | some staff =>
    if upd.stock_quantity ≠ old.stock_quantity then
      .ok [{ medication_id := old.medication_id
           , old_quantity := old.stock_quantity
           , new_quantity := upd.stock_quantity
           , change_type :=
               if upd.stock_quantity > old.stock_quantity then "addition" else "deduction"
           , change_at := .staffRef staff
           , staff_id := .timeRef now }]
    else
      .ok []

/-- One `UPDATE medications ... WHERE medication_id = medId` statement:
every matched row is rewritten by `f` and the `AFTER UPDATE` trigger fires
for it; an error raised by the trigger aborts the whole statement. Returns
the new `medications` rows and the audit rows the trigger appended. -/
def runUpdateRows (ctx : Option String) (now : Nat) (medId : Nat)
    (f : Medication → Medication) :
    List Medication → Except SqlError (List Medication × List MedicationAudit)
  | [] => .ok ([], [])
  | m :: rest =>
    if m.medication_id = medId then
      match trg_Audit_StockUpdate ctx now m (f m) with
      | .error e => .error e
      | .ok aud =>
        match runUpdateRows ctx now medId f rest with
        | .error e => .error e
        | .ok (ms, auds) => .ok (f m :: ms, aud ++ auds)
    else
      match runUpdateRows ctx now medId f rest with
      | .error e => .error e
      | .ok (ms, auds) => .ok (m :: ms, auds)

/-- The locking read
`SELECT stock_quantity INTO current_stock FROM medications WHERE medication_id = ? FOR UPDATE`:
returns the stock of the matched row, or `none` (the variable stays `NULL`)
when no row matches. -/
def selectStockForUpdate (meds : List Medication) (medId : Nat) : Option Int :=
  (meds.find? (fun m => m.medication_id = medId)).map Medication.stock_quantity

/-- Shallow embedding of `updateMedicationStock.sql`
(`UPDATE medications SET stock_quantity = ?, unit_price = ? WHERE medication_id = ?`)
executed as one statement with the audit trigger attached: a trigger error
aborts the statement and leaves the database unchanged. -/
def updateMedicationStock (ctx : Option String) (now : Nat) (db : DB)
    (stock_quantity unit_price : Int) (medication_id : Nat) :
    Except SqlError DB :=
  match runUpdateRows ctx now medication_id
      (fun m => { m with stock_quantity := stock_quantity, unit_price := unit_price })
      db.medications with
  | .error e => .error e
  | .ok (ms, auds) =>
    .ok { db with medications := ms, medication_audit := db.medication_audit ++ auds }

/-- A point at which the storage engine may fail during the issuance
transaction, raising an `SQLEXCEPTION` that activates the procedure's
`EXIT HANDLER`. -/
inductive FaultPoint where
  | atInsert
  | atUpdate
deriving DecidableEq

/-- Observable events of one run of the issuance procedure, in execution
order. `evSelectForUpdate id locked` is the execution of the
`SELECT ... FOR UPDATE` statement; `locked` records whether a row was
matched (and hence exclusively locked). `evSignal e` is the execution of a
`SIGNAL` statement in the procedure's body raising the condition `e`
(before any handler replaces it). -/
inductive Event where
  | evSelectForUpdate (medication_id : Nat) (locked : Bool)
  | evInsertItem
  | evUpdateStock
  | evCommit
  | evRollback
  | evSignal (e : SqlError)
deriving DecidableEq

instance {α β : Type} [DecidableEq α] [DecidableEq β] : DecidableEq (Except α β) :=
  fun x y =>
  match x, y with
  | .ok a, .ok b =>
    if h : a = b then .isTrue (by subst h; rfl)
    else .isFalse (fun hc => h (by cases hc; rfl))
  | .error a, .error b =>
    if h : a = b then .isTrue (by subst h; rfl)
    else .isFalse (fun hc => h (by cases hc; rfl))
  | .ok _, .error _ => .isFalse (fun hc => by cases hc)
  | .error _, .ok _ => .isFalse (fun hc => by cases hc)

/-- The result of one invocation of the procedure: the session on return
(database plus `@current_staff_id`), the outcome reported to the caller,
and the event trace. -/
structure ProcResult where
  session : Session
  outcome : Except SqlError Unit
  trace : List Event
deriving DecidableEq

/-- Shallow embedding of the stored procedure `sp_IssuePrescriptionItem`,
statement by statement in source order:
1. `SET @current_staff_id = p_doctor_id` (session variable, survives rollback);
2. `START TRANSACTION`;
3. the locking read of the medication's stock into `current_stock`;
4. `IF current_stock IS NULL THEN ROLLBACK; SIGNAL 'Medication not found.'`;
5. `IF p_quantity <= 0 THEN ROLLBACK; SIGNAL 'Invalid quantity requested.'`;
6. `IF current_stock < p_quantity THEN ROLLBACK; SIGNAL 'Insufficient stock for medication.'`;
7. `INSERT INTO prescription_item (...)`;
8. `UPDATE medications SET stock_quantity = current_stock - p_quantity ...`
   (fires `trg_Audit_StockUpdate` per matched row);
9. `COMMIT`; then `SET @current_staff_id = NULL`.
Every SQLEXCEPTION raised inside the body activates the
`EXIT HANDLER FOR SQLEXCEPTION` declared at steps corresponding to source
lines 34-39 — this includes the body's own `SIGNAL SQLSTATE '45000'`
statements at steps 4-6 (each recorded in the trace as `evSignal` with the
condition raised at that site) as well as a storage fault at step 7 or 8
and any trigger error at step 8. The handler rolls back and re-signals the
single generic message, so the caller observes `IssuanceFailed` on every
failure path. Observe that the source clears `@current_staff_id` only
after `COMMIT`: every failure path returns with it still set. -/
def sp_IssuePrescriptionItem (s : Session) (now : Nat) (fault : Option FaultPoint)
    (p_prescriptionitem_id p_diagnosis_id : String) (p_quantity : Int)
    (p_guide p_duration : String) (p_medication_id : Nat) (p_doctor_id : String) :
    ProcResult :=
  let ctx : Option String := some p_doctor_id
  let db0 := s.db
  let cs := selectStockForUpdate db0.medications p_medication_id
  let trace0 : List Event := [.evSelectForUpdate p_medication_id cs.isSome]
  match cs with
  | none =>
    { session := { db := db0, current_staff_id := ctx }
    , outcome := .error .IssuanceFailed
    , trace := trace0 ++ [.evRollback, .evSignal .MedicationNotFound
                         , .evRollback] }
  | some current_stock =>
    if p_quantity ≤ 0 then
      { session := { db := db0, current_staff_id := ctx }
      , outcome := .error .IssuanceFailed
      , trace := trace0 ++ [.evRollback, .evSignal .InvalidQuantity
                           , .evRollback] }
    else if current_stock < p_quantity then
      { session := { db := db0, current_staff_id := ctx }
      , outcome := .error .IssuanceFailed
      , trace := trace0 ++ [.evRollback, .evSignal .InsufficientStock
                           , .evRollback] }
    else if fault = some .atInsert then
      { session := { db := db0, current_staff_id := ctx }
      , outcome := .error .IssuanceFailed
      , trace := trace0 ++ [.evRollback] }
    else
      let item : PrescriptionItem :=
        { prescriptionitem_id := p_prescriptionitem_id
        , diagnosis_id := p_diagnosis_id
        , quantity := p_quantity
        , guide := p_guide
        , duration := p_duration
        , medication_id := p_medication_id
        , created_at := now }
      if fault = some .atUpdate then
        { session := { db := db0, current_staff_id := ctx }
        , outcome := .error .IssuanceFailed
        , trace := trace0 ++ [.evInsertItem, .evRollback] }
      else
        match runUpdateRows ctx now p_medication_id
            (fun m => { m with stock_quantity := current_stock - p_quantity })
            db0.medications with
        | .error _ =>
          { session := { db := db0, current_staff_id := ctx }
          , outcome := .error .IssuanceFailed
          , trace := trace0 ++ [.evInsertItem, .evRollback] }
        | .ok (ms, auds) =>
          { session :=
            { db := { medications := ms
                    , prescription_item := db0.prescription_item ++ [item]
                    , medication_audit := db0.medication_audit ++ auds }
            , current_staff_id := none }
          , outcome := .ok ()
          , trace := trace0 ++ [.evInsertItem, .evUpdateStock, .evCommit] }

/-- The arguments of one call to `sp_IssuePrescriptionItem`, together with
the engine timestamp and the storage-fault oracle for that call. -/
structure CallArgs where
  now : Nat
  fault : Option FaultPoint
  p_prescriptionitem_id : String
  p_diagnosis_id : String
  p_quantity : Int
  p_guide : String
  p_duration : String
  p_medication_id : Nat
  p_doctor_id : String
deriving DecidableEq

/-- Run one call described by `CallArgs` and return the resulting session:
a committed state reachable in one step through the issuance transaction. -/
def runCall (s : Session) (a : CallArgs) : Session :=
  (sp_IssuePrescriptionItem s a.now a.fault a.p_prescriptionitem_id
    a.p_diagnosis_id a.p_quantity a.p_guide a.p_duration
    a.p_medication_id a.p_doctor_id).session

/-- Run a sequence of issuance calls: the committed states reachable through
the issuance transaction are exactly the values `runCalls s as` takes. -/
def runCalls (s : Session) : List CallArgs → Session
  | [] => s
  | a :: as => runCalls (runCall s a) as

/-- N issuance attempts against one medication, serialized in commit order
(the order in which each attempt's transaction holds the row lock). Each
attempt supplies its prescription-item id and quantity; all target
`medId` and run fault-free. Returns the final session and the outcome of
each attempt, in order. -/
def runAttempts (now : Nat) (medId : Nat) (doctor : String) :
    Session → List (String × Int) → Session × List (Except SqlError Unit)
  | s, [] => (s, [])
  | s, (pid, q) :: rest =>
    let r := sp_IssuePrescriptionItem s now none pid "diag" q "guide" "dur" medId doctor
    let p := runAttempts now medId doctor r.session rest
    (p.1, r.outcome :: p.2)

/-- Whether an outcome is a success. -/
def isOkB : Except SqlError Unit → Bool
  | .ok _ => true
  | .error _ => false

/-- Number of successful outcomes. -/
def countOk (l : List (Except SqlError Unit)) : Nat :=
  (l.filter isOkB).length

/-- Length of the maximal prefix of `qs` whose cumulative sum does not
exceed `S` — the count of successes the specification's concurrency
property predicts. -/
def maxPrefixCount (S : Int) : List Int → Nat
  | [] => 0
  | q :: qs => if q ≤ S then maxPrefixCount (S - q) qs + 1 else 0

/-- The success pattern the serialized code actually produces on stock `S`:
an attempt succeeds exactly when its quantity is positive and does not
exceed the stock remaining after all earlier successful attempts. -/
def greedyOutcomes (S : Int) : List Int → List Bool
  | [] => []
  | q :: qs =>
    if 0 < q ∧ q ≤ S then true :: greedyOutcomes (S - q) qs
    else false :: greedyOutcomes S qs

/-- Stock remaining after serving `qs` greedily from stock `S`. -/
def greedyFinal (S : Int) : List Int → Int
  | [] => S
  | q :: qs => if 0 < q ∧ q ≤ S then greedyFinal (S - q) qs else greedyFinal S qs

/-- The `medications` rows an `UPDATE ... WHERE medication_id = medId`
statement produces: every matched row rewritten by `f`. -/
def updatedMeds (medId : Nat) (f : Medication → Medication)
    (l : List Medication) : List Medication :=
  l.map (fun m => if m.medication_id = medId then f m else m)

/-- The audit rows `trg_Audit_StockUpdate` appends for one authorized row
update (actor `staff`, timestamp `now`). -/
def auditRowsFor (staff : String) (now : Nat) (old upd : Medication) :
    List MedicationAudit :=
  if upd.stock_quantity ≠ old.stock_quantity then
    [{ medication_id := old.medication_id
     , old_quantity := old.stock_quantity
     , new_quantity := upd.stock_quantity
     , change_type :=
         if upd.stock_quantity > old.stock_quantity then "addition" else "deduction"
     , change_at := .staffRef staff
     , staff_id := .timeRef now }]
  else []

/-- All audit rows an authorized `UPDATE ... WHERE medication_id = medId`
statement appends, in row order. -/
def updateAudits (staff : String) (now : Nat) (medId : Nat)
    (f : Medication → Medication) : List Medication → List MedicationAudit
  | [] => []
  | m :: rest =>
    if m.medication_id = medId then
      auditRowsFor staff now m (f m) ++ updateAudits staff now medId f rest
    else
      updateAudits staff now medId f rest

lemma trg_some (staff : String) (now : Nat) (old upd : Medication) :
    trg_Audit_StockUpdate (some staff) now old upd
      = .ok (auditRowsFor staff now old upd) := by
  rw [trg_Audit_StockUpdate, auditRowsFor]
  split <;> rfl

/-- With the actor context set, the row-update statement never errors and
produces exactly the rewritten rows and the trigger's audit rows. -/
lemma runUpdateRows_some (staff : String) (now medId : Nat)
    (f : Medication → Medication) (l : List Medication) :
    runUpdateRows (some staff) now medId f l
      = .ok (updatedMeds medId f l, updateAudits staff now medId f l) := by
  induction l with
  | nil => rfl
  | cons m rest ih =>
    by_cases hid : m.medication_id = medId <;>
      simp [runUpdateRows, updatedMeds, updateAudits, hid, trg_some, ih]

/-- With no actor context, the row-update statement is rejected by the
trigger as soon as any row matches. -/
lemma runUpdateRows_none_error (now medId : Nat) (f : Medication → Medication)
    (l : List Medication) (hex : ∃ m ∈ l, m.medication_id = medId) :
    runUpdateRows none now medId f l = .error .UnauthorizedStockUpdate := by
  induction l with
  | nil => simp at hex
  | cons m rest ih =>
    by_cases hid : m.medication_id = medId
    · simp [runUpdateRows, hid, trg_Audit_StockUpdate]
    · obtain ⟨m', hm', hid'⟩ := hex
      rcases List.mem_cons.mp hm' with h' | hm''
      · exact absurd (h' ▸ hid') hid
      · simp [runUpdateRows, hid, ih ⟨m', hm'', hid'⟩]

/-- After an update writing a constant stock `c` to the matched rows, the
locking read of the same medication returns `c` (or still no row). -/
lemma selectStock_updatedMeds (l : List Medication) (medId : Nat) (c : Int) :
    selectStockForUpdate
        (updatedMeds medId (fun m => { m with stock_quantity := c }) l) medId
      = (selectStockForUpdate l medId).map (fun _ => c) := by
  induction l with
  | nil => rfl
  | cons m rest ih =>
    by_cases hid : m.medication_id = medId
    · simp [selectStockForUpdate, updatedMeds, List.find?_cons, hid]
    · simp [selectStockForUpdate, updatedMeds, List.find?_cons, hid]
      simpa [selectStockForUpdate, updatedMeds] using ih

/-- Full characterization of a fault-free issuance call whose validations
all pass: the reported outcome, the committed state and the event trace. -/
lemma sp_success (s : Session) (now : Nat) (pid dg g du doctor : String)
    (q cs : Int) (medId : Nat)
    (hcs : selectStockForUpdate s.db.medications medId = some cs)
    (hq : 0 < q) (hle : q ≤ cs) :
    sp_IssuePrescriptionItem s now none pid dg q g du medId doctor =
      { session :=
        { db :=
          { medications :=
              updatedMeds medId (fun m => { m with stock_quantity := cs - q })
                s.db.medications
          , prescription_item := s.db.prescription_item ++
              [{ prescriptionitem_id := pid, diagnosis_id := dg, quantity := q
               , guide := g, duration := du, medication_id := medId
               , created_at := now }]
          , medication_audit := s.db.medication_audit ++
              updateAudits doctor now medId
                (fun m => { m with stock_quantity := cs - q }) s.db.medications }
        , current_staff_id := none }
      , outcome := .ok ()
      , trace := [.evSelectForUpdate medId true, .evInsertItem, .evUpdateStock
                 , .evCommit] } := by
  have h1 : ¬(q ≤ 0) := not_le.mpr hq
  have h2 : ¬(cs < q) := not_lt.mpr hle
  simp [sp_IssuePrescriptionItem, hcs, h1, h2, runUpdateRows_some]

/-- Every row of the updated table is either an untouched original row or
the image under `f` of an original row. -/
lemma mem_updatedMeds {medId : Nat} {f : Medication → Medication}
    {l : List Medication} {m' : Medication} (h : m' ∈ updatedMeds medId f l) :
    m' ∈ l ∨ ∃ m, m ∈ l ∧ m' = f m := by
  rw [updatedMeds, List.mem_map] at h
  obtain ⟨m, hm, hEq⟩ := h
  by_cases hid : m.medication_id = medId
  · right
    exact ⟨m, hm, by rw [← hEq]; simp [hid]⟩
  · left
    rw [← hEq]
    simpa [hid] using hm

/-- On a table holding exactly the target medication row, the locking read
returns that row's stock. -/
lemma selectStock_singleton (s : Session) (m : Medication) (medId : Nat)
    (hm : s.db.medications = [m]) (hid : m.medication_id = medId) :
    selectStockForUpdate s.db.medications medId = some m.stock_quantity := by
  simp [selectStockForUpdate, hm, List.find?_cons, hid]

/-- A fault-free issuance attempt against the sole medication row fails
(and leaves the database untouched) whenever its quantity is not positive
or exceeds the current stock. -/
lemma sp_singleton_fail (s : Session) (now : Nat) (pid dg g du doctor : String)
    (q : Int) (medId : Nat) (m : Medication)
    (hm : s.db.medications = [m]) (hid : m.medication_id = medId)
    (hq : ¬(0 < q ∧ q ≤ m.stock_quantity)) :
    isOkB (sp_IssuePrescriptionItem s now none pid dg q g du medId doctor).outcome
        = false ∧
    (sp_IssuePrescriptionItem s now none pid dg q g du medId doctor).session.db
        = s.db := by
  have hcs := selectStock_singleton s m medId hm hid
  by_cases h1 : q ≤ 0
  · simp [sp_IssuePrescriptionItem, hcs, h1, isOkB]
  · have h2 : m.stock_quantity < q := by omega
    simp [sp_IssuePrescriptionItem, hcs, h1, h2, isOkB]

/-- Any failing invocation returns with the database exactly as it was:
every rollback path of the procedure restores the pre-transaction state. -/
lemma sp_error_db (s : Session) (now : Nat) (fault : Option FaultPoint)
    (pid dg g du doctor : String) (q : Int) (medId : Nat) (e : SqlError)
    (h : (sp_IssuePrescriptionItem s now fault pid dg q g du medId doctor).outcome
      = .error e) :
    (sp_IssuePrescriptionItem s now fault pid dg q g du medId doctor).session.db
      = s.db := by
  rcases hcs : selectStockForUpdate s.db.medications medId with _ | cs
  · simp [sp_IssuePrescriptionItem, hcs]
  · by_cases h1 : q ≤ 0
    · simp [sp_IssuePrescriptionItem, hcs, h1]
    · by_cases h2 : cs < q
      · simp [sp_IssuePrescriptionItem, hcs, h1, h2]
      · by_cases h3 : fault = some .atInsert
        · simp [sp_IssuePrescriptionItem, hcs, h1, h2, h3]
        · by_cases h4 : fault = some .atUpdate
          · simp [sp_IssuePrescriptionItem, hcs, h1, h2, h3, h4]
          · exfalso
            rw [sp_IssuePrescriptionItem] at h
            simp [hcs, h1, h2, h3, h4, runUpdateRows_some] at h

/-- One issuance call preserves non-negativity of every stock value. -/
lemma runCall_nonneg (s : Session) (a : CallArgs)
    (h : ∀ m ∈ s.db.medications, 0 ≤ m.stock_quantity) :
    ∀ m ∈ (runCall s a).db.medications, 0 ≤ m.stock_quantity := by
  rw [runCall]
  rcases hcs : selectStockForUpdate s.db.medications a.p_medication_id with _ | cs
  · simpa [sp_IssuePrescriptionItem, hcs] using h
  · by_cases h1 : a.p_quantity ≤ 0
    · simpa [sp_IssuePrescriptionItem, hcs, h1] using h
    · by_cases h2 : cs < a.p_quantity
      · simpa [sp_IssuePrescriptionItem, hcs, h1, h2] using h
      · by_cases h3 : a.fault = some .atInsert
        · simpa [sp_IssuePrescriptionItem, hcs, h1, h2, h3] using h
        · by_cases h4 : a.fault = some .atUpdate
          · simpa [sp_IssuePrescriptionItem, hcs, h1, h2, h3, h4] using h
          · intro m hm
            rw [sp_IssuePrescriptionItem] at hm
            simp [hcs, h1, h2, h3, h4, runUpdateRows_some] at hm
            rcases mem_updatedMeds hm with hold | ⟨m0, _, hEq⟩
            · exact h m hold
            · rw [hEq]
              simp
              omega

/-- Greedy service of positive requests never drives stock negative. -/
lemma greedyFinal_nonneg (qs : List Int) :
    ∀ S : Int, 0 ≤ S → 0 ≤ greedyFinal S qs := by
  induction qs with
  | nil =>
    intro S h
    simpa [greedyFinal] using h
  | cons q rest ih =>
    intro S h
    by_cases hc : 0 < q ∧ q ≤ S
    · rw [greedyFinal, if_pos hc]
      exact ih _ (by omega)
    · rw [greedyFinal, if_neg hc]
      exact ih _ h

/-- Serialized issuance attempts against a single medication behave exactly
greedily: each attempt succeeds precisely when its quantity is positive and
covered by the stock remaining after the earlier successes, and the final
stock is the greedy remainder. -/
lemma runAttempts_spec (now medId : Nat) (doctor : String) :
    ∀ (reqs : List (String × Int)) (s : Session) (m : Medication),
      s.db.medications = [m] → m.medication_id = medId →
      ((runAttempts now medId doctor s reqs).2.map isOkB
          = greedyOutcomes m.stock_quantity (reqs.map Prod.snd)) ∧
      ∃ m', (runAttempts now medId doctor s reqs).1.db.medications = [m'] ∧
        m'.medication_id = medId ∧
        m'.stock_quantity = greedyFinal m.stock_quantity (reqs.map Prod.snd) := by
  intro reqs
  induction reqs with
  | nil =>
    intro s m hm hid
    exact ⟨rfl, ⟨m, hm, hid, rfl⟩⟩
  | cons req rest ih =>
    intro s m hm hid
    obtain ⟨pid, q⟩ := req
    by_cases hcond : 0 < q ∧ q ≤ m.stock_quantity
    · have hcs := selectStock_singleton s m medId hm hid
      have hstep := sp_success s now pid "diag" "guide" "dur" doctor q
        m.stock_quantity medId hcs hcond.1 hcond.2
      have hmeds : updatedMeds medId
          (fun x => { x with stock_quantity := m.stock_quantity - q })
          s.db.medications
          = [{ m with stock_quantity := m.stock_quantity - q }] := by
        simp [updatedMeds, hm, hid]
      obtain ⟨ihmap, m', ihm', ihid', ihstock⟩ :=
        ih (sp_IssuePrescriptionItem s now none pid "diag" q "guide" "dur"
              medId doctor).session
          { m with stock_quantity := m.stock_quantity - q }
          (by rw [hstep]; simpa using hmeds) (by simpa using hid)
      rw [runAttempts]
      simp only [List.map_cons]
      refine ⟨?_, m', ?_, ihid', ?_⟩
      · rw [show (greedyOutcomes m.stock_quantity (q :: rest.map Prod.snd))
            = true :: greedyOutcomes (m.stock_quantity - q) (rest.map Prod.snd)
          from by rw [greedyOutcomes, if_pos hcond]]
        refine congrArg₂ List.cons ?_ ?_
        · rw [hstep]
          rfl
        · simpa using ihmap
      · simpa using ihm'
      · rw [show greedyFinal m.stock_quantity (q :: rest.map Prod.snd)
            = greedyFinal (m.stock_quantity - q) (rest.map Prod.snd)
          from by rw [greedyFinal, if_pos hcond]]
        simpa using ihstock
    · obtain ⟨hout, hdb⟩ :=
        sp_singleton_fail s now pid "diag" "guide" "dur" doctor q medId m hm hid
          hcond
      obtain ⟨ihmap, m', ihm', ihid', ihstock⟩ :=
        ih (sp_IssuePrescriptionItem s now none pid "diag" q "guide" "dur"
              medId doctor).session m (by rw [hdb, hm]) hid
      rw [runAttempts]
      simp only [List.map_cons]
      refine ⟨?_, m', ?_, ihid', ?_⟩
      · rw [show (greedyOutcomes m.stock_quantity (q :: rest.map Prod.snd))
            = false :: greedyOutcomes m.stock_quantity (rest.map Prod.snd)
          from by rw [greedyOutcomes, if_neg hcond]]
        exact congrArg₂ List.cons hout (by simpa using ihmap)
      · simpa using ihm'
      · rw [show greedyFinal m.stock_quantity (q :: rest.map Prod.snd)
            = greedyFinal m.stock_quantity (rest.map Prod.snd)
          from by rw [greedyFinal, if_neg hcond]]
        simpa using ihstock

/-- The specification's sample medication: stock 10. -/
def medA : Medication :=
  { medication_id := 1, name := "Amoxicillin", description := "antibiotic"
  , stock_quantity := 10, unit_price := 5 }

/-- The sample medication after four units have been issued. -/
def medA6 : Medication := { medA with stock_quantity := 6 }

/-- A database holding only the sample medication. -/
def dbA : DB :=
  { medications := [medA], prescription_item := [], medication_audit := [] }

/-- An idle session over `dbA` (no actor context set). -/
def sA : Session := { db := dbA, current_staff_id := none }

/-- The specification's scenario call: issue 4 units of medication 1. -/
def callA : CallArgs :=
  { now := 1700, fault := none, p_prescriptionitem_id := "p1"
  , p_diagnosis_id := "dg1", p_quantity := 4, p_guide := "g", p_duration := "du"
  , p_medication_id := 1, p_doctor_id := "doc1" }

/-- C1: starting from any state in which every medication's stock is
non-negative, every committed state reachable through any sequence of
issuance-transaction invocations (with any arguments, including faulting
ones) again has `stock_quantity >= 0` for every medication: the procedure
decrements stock only by a quantity it has checked against the stock read
under the row lock. -/
theorem C1_stock_nonneg_invariant (s : Session) (calls : List CallArgs)
    (h : ∀ m ∈ s.db.medications, 0 ≤ m.stock_quantity) :
    ∀ m ∈ (runCalls s calls).db.medications, 0 ≤ m.stock_quantity := by
  induction calls generalizing s with
  | nil => exact h
  | cons a as ih =>
    rw [runCalls]
    exact ih (runCall s a) (runCall_nonneg s a h)

theorem C1_stock_nonneg_invariant_witness : 0 ≤ medA6.stock_quantity :=
  C1_stock_nonneg_invariant sA [callA] (by decide) medA6 (by decide)

/-- C2 counterexample: three serialized attempts of 6, 7 and 3 against
stock 10 (total 16 > 10). The code commits attempts 1 and 3 (2 successes,
pattern success/failure/success), while the maximal prefix of 6, 7, 3 whose
cumulative quantity stays within 10 has length 1 — so the set of successes
is neither that maximal prefix nor a prefix at all. -/
theorem C2_counterexample :
    selectStockForUpdate sA.db.medications 1 = some 10 ∧
    (10 : Int) < 6 + 7 + 3 ∧
    (runAttempts 1700 1 "doc" sA [("a", 6), ("b", 7), ("c", 3)]).2.map isOkB
      = [true, false, true] ∧
    countOk (runAttempts 1700 1 "doc" sA [("a", 6), ("b", 7), ("c", 3)]).2 = 2 ∧
    maxPrefixCount 10 [6, 7, 3] = 1 :=
  ⟨rfl, by decide, rfl, rfl, rfl⟩

/-- C2 (amended): for N issuance attempts against one medication with
non-negative stock S, serialized by the exclusive row lock in commit order,
an attempt succeeds exactly when its quantity is positive and does not
exceed the stock remaining after the earlier successful attempts (the
greedy feasible set, which need not be a prefix); the final stock is the
greedy remainder and never drops below zero, so no two successes jointly
overdraw the stock. -/
theorem C2_amended_greedy (now medId : Nat) (doctor : String)
    (reqs : List (String × Int)) (s : Session) (m : Medication)
    (hm : s.db.medications = [m]) (hid : m.medication_id = medId)
    (hS : 0 ≤ m.stock_quantity) :
    ((runAttempts now medId doctor s reqs).2.map isOkB
        = greedyOutcomes m.stock_quantity (reqs.map Prod.snd)) ∧
    selectStockForUpdate
        (runAttempts now medId doctor s reqs).1.db.medications medId
      = some (greedyFinal m.stock_quantity (reqs.map Prod.snd)) ∧
    0 ≤ greedyFinal m.stock_quantity (reqs.map Prod.snd) := by
  obtain ⟨hmap, m', hm', hid', hstock⟩ :=
    runAttempts_spec now medId doctor reqs s m hm hid
  refine ⟨hmap, ?_, greedyFinal_nonneg _ _ hS⟩
  rw [selectStock_singleton (runAttempts now medId doctor s reqs).1 m' medId
    hm' hid', hstock]

theorem C2_amended_greedy_witness :
    ((runAttempts 1700 1 "doc" sA [("a", 6), ("b", 7), ("c", 3)]).2.map isOkB
        = greedyOutcomes medA.stock_quantity
            ([("a", 6), ("b", 7), ("c", 3)].map Prod.snd)) ∧
    selectStockForUpdate
        (runAttempts 1700 1 "doc" sA [("a", 6), ("b", 7), ("c", 3)]).1.db.medications 1
      = some (greedyFinal medA.stock_quantity
          ([("a", 6), ("b", 7), ("c", 3)].map Prod.snd)) ∧
    0 ≤ greedyFinal medA.stock_quantity
        ([("a", 6), ("b", 7), ("c", 3)].map Prod.snd) :=
  C2_amended_greedy 1700 1 "doc" [("a", 6), ("b", 7), ("c", 3)] sA medA rfl rfl
    (by decide)

/-- C3: the trigger's own comment says the acting staff goes into
`staff_id`, but the `INSERT` places `@current_staff_id` in the `change_at`
column position and `CURRENT_TIMESTAMP` in the `staff_id` position. On the
scenario stock change 10 → 6 by doctor `doc1` at time 1700, the appended
audit row (shown both for the trigger alone and through a full committed
issuance) carries the timestamp in `staff_id` and the staff identity in
`change_at` — the two columns the claim requires are swapped, while
old/new quantities and the `deduction` classification are correct. -/
theorem C3_audit_staff_timestamp_swapped :
    trg_Audit_StockUpdate (some "doc1") 1700 medA medA6
      = .ok [{ medication_id := 1, old_quantity := 10, new_quantity := 6
             , change_type := "deduction"
             , change_at := .staffRef "doc1", staff_id := .timeRef 1700 }] ∧
    (sp_IssuePrescriptionItem sA 1700 none "p1" "dg1" 4 "g" "du" 1 "doc1").session.db.medication_audit
      = [{ medication_id := 1, old_quantity := 10, new_quantity := 6
         , change_type := "deduction"
         , change_at := .staffRef "doc1", staff_id := .timeRef 1700 }] :=
  ⟨rfl, rfl⟩

/-- C4: the source clears `@current_staff_id` only after `COMMIT`; on the
rollback paths the procedure returns with the context still set to the
caller's doctor id. Concretely: an attempt against a missing medication
fails (the medication-not-found condition is raised in the body, surfaced
by the handler as the generic failure) and leaves
`@current_staff_id = 'doc7'`, while a successful attempt does clear it. -/
theorem C4_context_not_cleared_on_rollback :
    ((sp_IssuePrescriptionItem sA 1700 none "p9" "dg1" 4 "g" "du" 2 "doc7").outcome
        = .error .IssuanceFailed ∧
      (sp_IssuePrescriptionItem sA 1700 none "p9" "dg1" 4 "g" "du" 2 "doc7").trace
        = [.evSelectForUpdate 2 false, .evRollback
          , .evSignal .MedicationNotFound, .evRollback] ∧
      (sp_IssuePrescriptionItem sA 1700 none "p9" "dg1" 4 "g" "du" 2 "doc7").session.current_staff_id
        = some "doc7") ∧
    (sp_IssuePrescriptionItem sA 1700 none "p1" "dg1" 4 "g" "du" 1 "doc7").session.current_staff_id
      = none :=
  ⟨⟨rfl, rfl, rfl⟩, rfl⟩

/-- C5: whenever an issuance attempt reports any failure — a validation
failure or a storage fault at the insert or at the stock update — the
`medications` table (hence every stock value) and the `prescription_item`
table are exactly as they were before the attempt: every failure path rolls
the transaction back fully before reporting. -/
theorem C5_failure_full_rollback (s : Session) (now : Nat)
    (fault : Option FaultPoint) (pid dg g du doctor : String) (q : Int)
    (medId : Nat) (e : SqlError)
    (h : (sp_IssuePrescriptionItem s now fault pid dg q g du medId doctor).outcome
      = .error e) :
    (sp_IssuePrescriptionItem s now fault pid dg q g du medId doctor).session.db.medications
        = s.db.medications ∧
    (sp_IssuePrescriptionItem s now fault pid dg q g du medId doctor).session.db.prescription_item
        = s.db.prescription_item := by
  have hdb := sp_error_db s now fault pid dg g du doctor q medId e h
  exact ⟨by rw [hdb], by rw [hdb]⟩

theorem C5_failure_full_rollback_witness :
    (sp_IssuePrescriptionItem sA 1700 none "p1" "dg1" 11 "g" "du" 1 "doc1").session.db.medications
        = sA.db.medications ∧
    (sp_IssuePrescriptionItem sA 1700 none "p1" "dg1" 11 "g" "du" 1 "doc1").session.db.prescription_item
        = sA.db.prescription_item :=
  C5_failure_full_rollback sA 1700 none "p1" "dg1" "g" "du" "doc1" 11 1
    .IssuanceFailed rfl

/-- C6: when the medication exists (its locked read returns stock `cs`),
the requested quantity is positive and `cs` covers it, the fault-free call
succeeds, appends exactly one `prescription_item` row carrying the given
identifiers and that quantity, and the medication's stock is decremented by
exactly the requested quantity — all in the single committed state the call
returns. -/
theorem C6_success_effects (s : Session) (now : Nat)
    (pid dg g du doctor : String) (q cs : Int) (medId : Nat)
    (hcs : selectStockForUpdate s.db.medications medId = some cs)
    (hq : 0 < q) (hle : q ≤ cs) :
    (sp_IssuePrescriptionItem s now none pid dg q g du medId doctor).outcome
        = .ok () ∧
    (sp_IssuePrescriptionItem s now none pid dg q g du medId doctor).session.db.prescription_item
        = s.db.prescription_item ++
          [{ prescriptionitem_id := pid, diagnosis_id := dg, quantity := q
           , guide := g, duration := du, medication_id := medId
           , created_at := now }] ∧
    selectStockForUpdate
        (sp_IssuePrescriptionItem s now none pid dg q g du medId doctor).session.db.medications
        medId
      = some (cs - q) := by
  have h := sp_success s now pid dg g du doctor q cs medId hcs hq hle
  refine ⟨by rw [h], by rw [h], ?_⟩
  rw [h]
  show selectStockForUpdate
      (updatedMeds medId (fun m => { m with stock_quantity := cs - q })
        s.db.medications) medId = some (cs - q)
  rw [selectStock_updatedMeds, hcs]
  rfl

theorem C6_success_effects_witness :
    (sp_IssuePrescriptionItem sA 1700 none "p1" "dg1" 4 "g" "du" 1 "doc1").outcome
        = .ok () ∧
    (sp_IssuePrescriptionItem sA 1700 none "p1" "dg1" 4 "g" "du" 1 "doc1").session.db.prescription_item
        = sA.db.prescription_item ++
          [{ prescriptionitem_id := "p1", diagnosis_id := "dg1", quantity := 4
           , guide := "g", duration := "du", medication_id := 1
           , created_at := 1700 }] ∧
    selectStockForUpdate
        (sp_IssuePrescriptionItem sA 1700 none "p1" "dg1" 4 "g" "du" 1 "doc1").session.db.medications 1
      = some (10 - 4) :=
  C6_success_effects sA 1700 "p1" "dg1" "g" "du" "doc1" 4 10 1 rfl (by decide)
    (by decide)

/-- C7: the three validations do run in the source's order — existence
first, then quantity positivity, then stock sufficiency — with full
rollback, and each raises its own distinct condition with its own message
text at its `SIGNAL` site (visible as `evSignal` in the traces; a missing
medication wins over a non-positive quantity, which wins over the stock
test). But SQLSTATE '45000' is an SQLEXCEPTION, so the procedure's own
`EXIT HANDLER FOR SQLEXCEPTION` catches each of the three and re-signals
the single generic message: the caller receives the identical
`IssuanceFailed` for all three violations, not the claimed distinct typed
failures. -/
theorem C7_generic_failure_surfaced :
    ((sp_IssuePrescriptionItem sA 1700 none "p1" "dg1" 4 "g" "du" 2 "doc1").outcome
        = .error .IssuanceFailed ∧
      (sp_IssuePrescriptionItem sA 1700 none "p1" "dg1" 4 "g" "du" 2 "doc1").trace
        = [.evSelectForUpdate 2 false, .evRollback
          , .evSignal .MedicationNotFound, .evRollback] ∧
      (sp_IssuePrescriptionItem sA 1700 none "p1" "dg1" 4 "g" "du" 2 "doc1").session.db
        = sA.db) ∧
    ((sp_IssuePrescriptionItem sA 1700 none "p1" "dg1" 0 "g" "du" 1 "doc1").outcome
        = .error .IssuanceFailed ∧
      (sp_IssuePrescriptionItem sA 1700 none "p1" "dg1" 0 "g" "du" 1 "doc1").trace
        = [.evSelectForUpdate 1 true, .evRollback
          , .evSignal .InvalidQuantity, .evRollback] ∧
      (sp_IssuePrescriptionItem sA 1700 none "p1" "dg1" 0 "g" "du" 1 "doc1").session.db
        = sA.db) ∧
    ((sp_IssuePrescriptionItem sA 1700 none "p1" "dg1" 11 "g" "du" 1 "doc1").outcome
        = .error .IssuanceFailed ∧
      (sp_IssuePrescriptionItem sA 1700 none "p1" "dg1" 11 "g" "du" 1 "doc1").trace
        = [.evSelectForUpdate 1 true, .evRollback
          , .evSignal .InsufficientStock, .evRollback] ∧
      (sp_IssuePrescriptionItem sA 1700 none "p1" "dg1" 11 "g" "du" 1 "doc1").session.db
        = sA.db) ∧
    SqlError.message .MedicationNotFound ≠ SqlError.message .InvalidQuantity ∧
    SqlError.message .MedicationNotFound ≠ SqlError.message .InsufficientStock ∧
    SqlError.message .InvalidQuantity ≠ SqlError.message .InsufficientStock :=
  ⟨⟨rfl, rfl, rfl⟩, ⟨rfl, rfl, rfl⟩, ⟨rfl, rfl, rfl⟩,
   by decide, by decide, by decide⟩

/-- C8: an `UPDATE` of a medication row attempted with no actor context set
is rejected by the audit trigger with `UnauthorizedStockUpdate`; the
statement (and with it the enclosing transaction) aborts, so no audit row
is appended and no stock value changes — the embedding returns the error
with no new database state. -/
theorem C8_unattributed_update_rejected (now : Nat) (db : DB)
    (ns np : Int) (medId : Nat)
    (hex : ∃ m ∈ db.medications, m.medication_id = medId) :
    updateMedicationStock none now db ns np medId
      = .error .UnauthorizedStockUpdate := by
  rw [updateMedicationStock, runUpdateRows_none_error now medId _ db.medications hex]

theorem C8_unattributed_update_rejected_witness :
    updateMedicationStock none 1700 dbA 20 7 1
      = .error .UnauthorizedStockUpdate :=
  C8_unattributed_update_rejected 1700 dbA 20 7 1 (by decide)

/-- C9 counterexample: issuing quantity 0 against the existing
medication 1 does fail, but (a) the run's trace shows the
`SELECT ... FOR UPDATE` statement executed first with a row matched and
locked — the lock is taken before the quantity validation, contradicting
"before any lock is taken" — and (b) the caller-visible failure is the
handler's generic `IssuanceFailed`, not `InvalidQuantity`, which is only
the condition raised internally at the body's `SIGNAL` site. -/
theorem C9_counterexample :
    (sp_IssuePrescriptionItem sA 1700 none "p1" "dg1" 0 "g" "du" 1 "doc1").trace
      = [.evSelectForUpdate 1 true, .evRollback
        , .evSignal .InvalidQuantity, .evRollback] ∧
    (sp_IssuePrescriptionItem sA 1700 none "p1" "dg1" 0 "g" "du" 1 "doc1").outcome
      = .error .IssuanceFailed ∧
    (sp_IssuePrescriptionItem sA 1700 none "p1" "dg1" 0 "g" "du" 1 "doc1").outcome
      ≠ .error .InvalidQuantity :=
  ⟨rfl, rfl, by decide⟩

/-- C9 (amended): a request with non-positive quantity against an existing
medication fails, with the invalid-quantity condition raised only after
the lock-for-update read of the medication's stock row: the trace is
exactly the locking read (row matched and locked), the body's rollback,
the `SIGNAL` raising `InvalidQuantity`, and the exit handler's rollback —
and the handler surfaces the failure to the caller as the single generic
`IssuanceFailed`. -/
theorem C9_amended_lock_before_validation (s : Session) (now : Nat)
    (pid dg g du doctor : String) (q : Int) (medId : Nat) (cs : Int)
    (hcs : selectStockForUpdate s.db.medications medId = some cs)
    (hq : q ≤ 0) :
    (sp_IssuePrescriptionItem s now none pid dg q g du medId doctor).outcome
      = .error .IssuanceFailed ∧
    (sp_IssuePrescriptionItem s now none pid dg q g du medId doctor).trace
      = [.evSelectForUpdate medId true, .evRollback
        , .evSignal .InvalidQuantity, .evRollback] := by
  constructor <;> simp [sp_IssuePrescriptionItem, hcs, hq]

theorem C9_amended_lock_before_validation_witness :
    (sp_IssuePrescriptionItem sA 1700 none "p2" "dg1" 0 "g" "du" 1 "doc1").outcome
      = .error .IssuanceFailed ∧
    (sp_IssuePrescriptionItem sA 1700 none "p2" "dg1" 0 "g" "du" 1 "doc1").trace
      = [.evSelectForUpdate 1 true, .evRollback
        , .evSignal .InvalidQuantity, .evRollback] :=
  C9_amended_lock_before_validation sA 1700 "p2" "dg1" "g" "du" "doc1" 0 1 10
    rfl (by decide)

/-- C10: the trigger's attribution check precedes its stock-changed check,
so with no actor context even an update that writes the same stock value
back (changing only `unit_price`, as the `updateMedicationStock` mutation
can) is rejected with `UnauthorizedStockUpdate` (message "Unauthorized
stock update detected."). -/
theorem C10_noop_stock_update_rejected (now : Nat) (db : DB)
    (np : Int) (medId : Nat) (m : Medication)
    (hm : m ∈ db.medications) (hid : m.medication_id = medId) :
    updateMedicationStock none now db m.stock_quantity np medId
      = .error .UnauthorizedStockUpdate := by
  rw [updateMedicationStock,
    runUpdateRows_none_error now medId _ db.medications ⟨m, hm, hid⟩]

theorem C10_noop_stock_update_rejected_witness :
    updateMedicationStock none 1700 dbA medA.stock_quantity 7 1
      = .error .UnauthorizedStockUpdate :=
  C10_noop_stock_update_rejected 1700 dbA 7 1 medA (by decide) rfl
